import Mathlib

/-!
Shallow embedding of the NeuraCity Community Risk Index engine
(`backend/app/services/risk_index_service.py` and the batch endpoint in
`backend/app/api/endpoints/risk_index.py`), together with theorems settling
the specification claims about it.

Python floats are modelled as real numbers; Python `round(x, 3)` (banker's
rounding to 3 decimal places) is modelled by `round3`; Python `dict.get`
with a default is modelled by `Option.getD`; `math.sqrt`, `math.sin`,
`math.cos`, `math.atan2` and float `**` are modelled by `Real.sqrt`,
`Real.sin`, `Real.cos`, `atan2` (defined below) and `Real.rpow`.
-/

namespace NeuraCity

open Real

open scoped Classical

/-- Python's `round(x, 3)`: round to the nearest multiple of 1/1000,
ties going to the even multiple (banker's rounding). -/
noncomputable def round3 (x : ℝ) : ℝ :=
  if x * 1000 - ⌊x * 1000⌋ < 1 / 2 then (⌊x * 1000⌋ : ℝ) / 1000
  else if 1 / 2 < x * 1000 - ⌊x * 1000⌋ then ((⌊x * 1000⌋ : ℝ) + 1) / 1000
  else if ⌊x * 1000⌋ % 2 = 0 then (⌊x * 1000⌋ : ℝ) / 1000
  else ((⌊x * 1000⌋ : ℝ) + 1) / 1000

/-- Evaluation rule for `round3` when the value lies in the lower half of a
1/1000-cell (rounds down to `n / 1000`). -/
theorem round3_eq_down {x : ℝ} (n : ℤ) (h1 : (n : ℝ) ≤ x * 1000)
    (h2 : x * 1000 < n + 1 / 2) : round3 x = n / 1000 := by
  have hf : ⌊x * 1000⌋ = n := Int.floor_eq_iff.mpr ⟨h1, by linarith⟩
  unfold round3
  rw [hf, if_pos (by linarith)]

/-- Evaluation rule for `round3` when the value lies in the upper half of a
1/1000-cell (rounds up to `(n+1) / 1000`). -/
theorem round3_eq_up {x : ℝ} (n : ℤ) (h1 : (n : ℝ) + 1 / 2 < x * 1000)
    (h2 : x * 1000 < n + 1) : round3 x = (n + 1) / 1000 := by
  have hf : ⌊x * 1000⌋ = n := Int.floor_eq_iff.mpr ⟨by linarith, by linarith⟩
  unfold round3
  rw [hf, if_neg (by linarith), if_pos (by linarith)]

theorem round3_mono : Monotone round3 := by
  intro x y hxy
  have hm : ⌊x * 1000⌋ ≤ ⌊y * 1000⌋ := Int.floor_mono (by linarith)
  have hxlb : (⌊x * 1000⌋ : ℝ) ≤ x * 1000 := Int.floor_le _
  have hxub : x * 1000 < ⌊x * 1000⌋ + 1 := Int.lt_floor_add_one _
  have hylb : (⌊y * 1000⌋ : ℝ) ≤ y * 1000 := Int.floor_le _
  have hyub : y * 1000 < ⌊y * 1000⌋ + 1 := Int.lt_floor_add_one _
  rcases lt_or_eq_of_le hm with hlt | heq
  · -- different cells: round3 x ≤ (⌊x*1000⌋+1)/1000 ≤ ⌊y*1000⌋/1000 ≤ round3 y
    have h1 : (⌊x * 1000⌋ : ℝ) + 1 ≤ (⌊y * 1000⌋ : ℝ) := by exact_mod_cast hlt
    unfold round3
    split_ifs <;> · gcongr <;> linarith
  · -- same cell: compare fractional parts
    unfold round3
    rw [← heq]
    have hfr : x * 1000 - ⌊x * 1000⌋ ≤ y * 1000 - ⌊x * 1000⌋ := by linarith
    split_ifs <;> first
      | rfl
      | (gcongr; linarith)

theorem round3_zero : round3 0 = 0 := by
  rw [round3_eq_down 0 (by norm_num) (by norm_num)]; norm_num

theorem round3_one : round3 1 = 1 := by
  rw [round3_eq_down 1000 (by norm_num) (by norm_num)]; norm_num

theorem round3_nonneg {x : ℝ} (h : 0 ≤ x) : 0 ≤ round3 x := by
  have := round3_mono h
  rwa [round3_zero] at this

theorem round3_le_one {x : ℝ} (h : x ≤ 1) : round3 x ≤ 1 := by
  have := round3_mono h
  rwa [round3_one] at this

/-- Configuration record for risk index calculations
(`RiskConfig` dataclass in the source, with its defaults). -/
structure RiskConfig where
  crime_weight : ℝ := 0.25
  blight_weight : ℝ := 0.15
  emergency_response_weight : ℝ := 0.20
  air_quality_weight : ℝ := 0.15
  heat_exposure_weight : ℝ := 0.10
  traffic_speed_weight : ℝ := 0.15
  crime_max_incidents : ℝ := 50
  blight_max_properties : ℝ := 20
  emergency_max_minutes : ℝ := 30
  air_quality_max_aqi : ℝ := 200
  heat_exposure_max_celsius : ℝ := 45.0
  traffic_speed_max_mph : ℝ := 65
  spatial_radius_meters : ℝ := 500.0
  spatial_decay_factor : ℝ := 0.5

/-- Sum of the six factor weights (the local `total_weight` in
`RiskConfig.validate`). -/
def RiskConfig.total_weight (c : RiskConfig) : ℝ :=
  c.crime_weight + c.blight_weight + c.emergency_response_weight +
    c.air_quality_weight + c.heat_exposure_weight + c.traffic_speed_weight

/-- The check performed by `RiskConfig.validate`: the weights sum to 1.0 up
to the tolerance `0.99 <= total_weight <= 1.01`. -/
def RiskConfig.validate (c : RiskConfig) : Prop :=
  0.99 ≤ c.total_weight ∧ c.total_weight ≤ 1.01

/-- Module-level `DEFAULT_CONFIG = RiskConfig()`. -/
def DEFAULT_CONFIG : RiskConfig := {}

/-- Source function `calculate_crime_score`. -/
noncomputable def calculate_crime_score (incidents_per_month : ℝ)
    (severity_multiplier : ℝ) (config : RiskConfig) : ℝ :=
  round3 (min 1.0 (incidents_per_month * severity_multiplier / config.crime_max_incidents))

/-- The local `weighted_sum` computed inside `calculate_blight_score`:
buildings weigh 3.0, code violations 2.0, vacant lots 1.0 per unit. -/
def blight_weighted_sum (abandoned_buildings vacant_lots code_violations : ℝ) : ℝ :=
  abandoned_buildings * 3.0 + code_violations * 2.0 + vacant_lots * 1.0

/-- Source function `calculate_blight_score`. -/
noncomputable def calculate_blight_score (abandoned_buildings vacant_lots
    code_violations : ℝ) (config : RiskConfig) : ℝ :=
  round3 (min 1.0 (blight_weighted_sum abandoned_buildings vacant_lots code_violations /
    (config.blight_max_properties * 6.0)))

/-- Source function `calculate_emergency_response_score` (70/30 blend of
average and 90th-percentile response time fractions, square-root transform,
clamp to 1). -/
noncomputable def calculate_emergency_response_score
    (avg_response_time_minutes percentile_90_time_minutes : ℝ)
    (config : RiskConfig) : ℝ :=
  round3 (min 1.0 (Real.sqrt
    (0.7 * (avg_response_time_minutes / config.emergency_max_minutes) +
     0.3 * (percentile_90_time_minutes / config.emergency_max_minutes))))

/-- Source function `calculate_air_quality_score` (piecewise-linear AQI
bands hard-coded against 200, optional PM2.5 blend). The `config` argument
is accepted but, as in the source, unused. -/
noncomputable def calculate_air_quality_score (aqi_value : ℝ)
    (pm25_concentration : Option ℝ) (config : RiskConfig) : ℝ :=
  let aqi_score : ℝ :=
    if aqi_value ≤ 50 then aqi_value / 200.0
    else if aqi_value ≤ 100 then 0.25 + (aqi_value - 50) / 200.0
    else if aqi_value ≤ 150 then 0.5 + (aqi_value - 100) / 200.0
    else 0.75 + (aqi_value - 150) / 200.0
  let aqi_score := min 1.0 aqi_score
  match pm25_concentration with
  | some pm25 => round3 (0.7 * aqi_score + 0.3 * min 1.0 (pm25 / 100.0))
  | none => round3 aqi_score

/-- Source function `calculate_heat_exposure_score` (60% temperature
component anchored at 20 °C / 25 °C, 40% environment component from tree
canopy and impervious surface percentages). -/
noncomputable def calculate_heat_exposure_score
    (avg_temperature_celsius max_temperature_celsius
     tree_canopy_percent impervious_surface_percent : ℝ)
    (config : RiskConfig) : ℝ :=
  let avg_temp_score := min 1.0 ((avg_temperature_celsius - 20) /
    (config.heat_exposure_max_celsius - 20))
  let max_temp_score := min 1.0 ((max_temperature_celsius - 25) /
    (config.heat_exposure_max_celsius - 25))
  let temp_component := max 0.0 (0.6 * avg_temp_score + 0.4 * max_temp_score)
  let canopy_risk := 1.0 - tree_canopy_percent / 100.0
  let impervious_risk := impervious_surface_percent / 100.0
  let env_component := 0.5 * canopy_risk + 0.5 * impervious_risk
  round3 (0.6 * temp_component + 0.4 * env_component)

/-- The road-type safe-speed lookup `thresholds.get(road_type, 25)` inside
`calculate_traffic_speed_score`. -/
def traffic_safe_threshold (road_type : String) : ℝ :=
  if road_type = "residential" then 25
  else if road_type = "arterial" then 35
  else if road_type = "highway" then 55
  else 25

/-- The pedestrian volume multiplier inside `calculate_traffic_speed_score`
(1.0 below 50/day, 1.3 below 200/day, 1.6 otherwise). -/
def pedestrian_multiplier (pedestrian_volume : ℤ) : ℝ :=
  if pedestrian_volume < 50 then 1.0
  else if pedestrian_volume < 200 then 1.3
  else 1.6

/-- Source function `calculate_traffic_speed_score`. Note the source
computes the 85th-percentile overage as
`percentile_85_speed_mph - safe_threshold - 10`. -/
noncomputable def calculate_traffic_speed_score
    (avg_speed_mph percentile_85_speed_mph : ℝ) (pedestrian_volume : ℤ)
    (road_type : String) (config : RiskConfig) : ℝ :=
  let safe_threshold := traffic_safe_threshold road_type
  let avg_speed_score := max 0.0 ((avg_speed_mph - safe_threshold) /
    (config.traffic_speed_max_mph - safe_threshold))
  let p85_speed_score := max 0.0 ((percentile_85_speed_mph - safe_threshold - 10) /
    (config.traffic_speed_max_mph - safe_threshold))
  let speed_component := min 1.0 (0.6 * avg_speed_score + 0.4 * p85_speed_score)
  round3 (min 1.0 (speed_component * pedestrian_multiplier pedestrian_volume))

/-- The fixed category thresholds applied to a composite index. The source
writes this if/elif chain inline, both in `calculate_composite_risk_index`
and again after smoothing in the single-block recalculation endpoint. -/
noncomputable def risk_category_of (composite : ℝ) : String :=
  if composite < 0.3 then "low"
  else if composite < 0.5 then "moderate"
  else if composite < 0.7 then "high"
  else "critical"

/-- Position of a category in the order low < moderate < high < critical. -/
def category_rank (category : String) : ℕ :=
  if category = "low" then 0
  else if category = "moderate" then 1
  else if category = "high" then 2
  else 3

/-- Result dictionary of `calculate_composite_risk_index`. -/
structure CompositeResult where
  composite_risk_index : ℝ
  risk_category : String

/-- Source function `calculate_composite_risk_index`: weighted sum when the
config validates, unweighted mean otherwise, rounded to 3 decimals, with
the fixed category thresholds. -/
noncomputable def calculate_composite_risk_index
    (crime_score blight_score emergency_response_score air_quality_score
     heat_exposure_score traffic_speed_score : ℝ)
    (config : RiskConfig) : CompositeResult :=
  let composite :=
    if ¬ config.validate then
      (crime_score + blight_score + emergency_response_score +
        air_quality_score + heat_exposure_score + traffic_speed_score) / 6.0
    else
      crime_score * config.crime_weight +
        blight_score * config.blight_weight +
        emergency_response_score * config.emergency_response_weight +
        air_quality_score * config.air_quality_weight +
        heat_exposure_score * config.heat_exposure_weight +
        traffic_speed_score * config.traffic_speed_weight
  let composite := round3 composite
  { composite_risk_index := composite, risk_category := risk_category_of composite }

theorem category_rank_risk_category_of (x : ℝ) :
    category_rank (risk_category_of x) =
      if x < 0.3 then 0 else if x < 0.5 then 1 else if x < 0.7 then 2 else 3 := by
  unfold risk_category_of category_rank
  split_ifs <;> simp_all

theorem category_rank_mono {x y : ℝ} (h : x ≤ y) :
    category_rank (risk_category_of x) ≤ category_rank (risk_category_of y) := by
  rw [category_rank_risk_category_of, category_rank_risk_category_of]
  split_ifs <;> first | (exfalso; linarith) | omega

/-- Branch of `calculate_composite_risk_index` taken when the configured
weights validate: the weighted sum. -/
theorem calculate_composite_risk_index_of_validate
    (c b e a h t : ℝ) (config : RiskConfig) (hv : config.validate) :
    calculate_composite_risk_index c b e a h t config =
      { composite_risk_index := round3 (c * config.crime_weight +
          b * config.blight_weight + e * config.emergency_response_weight +
          a * config.air_quality_weight + h * config.heat_exposure_weight +
          t * config.traffic_speed_weight),
        risk_category := risk_category_of (round3 (c * config.crime_weight +
          b * config.blight_weight + e * config.emergency_response_weight +
          a * config.air_quality_weight + h * config.heat_exposure_weight +
          t * config.traffic_speed_weight)) } := by
  unfold calculate_composite_risk_index
  rw [if_neg (not_not_intro hv)]

/-- Branch of `calculate_composite_risk_index` taken when the configured
weights do not validate: the unweighted mean. -/
theorem calculate_composite_risk_index_of_not_validate
    (c b e a h t : ℝ) (config : RiskConfig) (hv : ¬ config.validate) :
    calculate_composite_risk_index c b e a h t config =
      { composite_risk_index := round3 ((c + b + e + a + h + t) / 6.0),
        risk_category := risk_category_of (round3 ((c + b + e + a + h + t) / 6.0)) } := by
  unfold calculate_composite_risk_index
  rw [if_pos hv]

/-- A configuration whose six weights sum to 0.5, as in the C3 spec
example. -/
def half_weight_config : RiskConfig :=
  { crime_weight := 0.5, blight_weight := 0, emergency_response_weight := 0,
    air_quality_weight := 0, heat_exposure_weight := 0, traffic_speed_weight := 0 }

/-- A configuration with a negative crime weight whose six weights still sum
to 1.0 (used for claim C5): -0.25 + 0.65 + 0.20 + 0.15 + 0.10 + 0.15 = 1. -/
def negative_weight_config : RiskConfig :=
  { crime_weight := -0.25, blight_weight := 0.65 }

/-- Claim C2 (counterexample): with the six factor scores
[0.36, 0.158, 0.5, 0.4, 0.3, 0.45] and default weights the composite risk
index is not 0.369 — the weighted sum is 0.3712, which rounds to 0.371. -/
theorem worked_example_composite_counterexample :
    (calculate_composite_risk_index 0.36 0.158 0.5 0.4 0.3 0.45 DEFAULT_CONFIG).composite_risk_index ≠ 0.369 := by
  rw [calculate_composite_risk_index_of_validate _ _ _ _ _ _ _
    (by constructor <;> (unfold RiskConfig.total_weight DEFAULT_CONFIG; norm_num))]
  show round3 _ ≠ _
  rw [show (0.36 * DEFAULT_CONFIG.crime_weight + 0.158 * DEFAULT_CONFIG.blight_weight +
      0.5 * DEFAULT_CONFIG.emergency_response_weight + 0.4 * DEFAULT_CONFIG.air_quality_weight +
      0.3 * DEFAULT_CONFIG.heat_exposure_weight + 0.45 * DEFAULT_CONFIG.traffic_speed_weight : ℝ) = 0.3712 by
    unfold DEFAULT_CONFIG; norm_num]
  rw [round3_eq_down 371 (by norm_num) (by norm_num)]
  norm_num

/-- Claim C2 (amended): with the six factor scores
[0.36, 0.158, 0.5, 0.4, 0.3, 0.45] (crime, blight, emergency-response,
air-quality, heat, traffic) and the default weights,
`calculate_composite_risk_index` returns composite_risk_index 0.371
(the weighted sum 0.3712 rounded to 3 decimals) and category "moderate". -/
theorem worked_example_composite :
    (calculate_composite_risk_index 0.36 0.158 0.5 0.4 0.3 0.45 DEFAULT_CONFIG).composite_risk_index = 0.371 ∧
    (calculate_composite_risk_index 0.36 0.158 0.5 0.4 0.3 0.45 DEFAULT_CONFIG).risk_category = "moderate" := by
  rw [calculate_composite_risk_index_of_validate _ _ _ _ _ _ _
    (by constructor <;> (unfold RiskConfig.total_weight DEFAULT_CONFIG; norm_num))]
  rw [show (0.36 * DEFAULT_CONFIG.crime_weight + 0.158 * DEFAULT_CONFIG.blight_weight +
      0.5 * DEFAULT_CONFIG.emergency_response_weight + 0.4 * DEFAULT_CONFIG.air_quality_weight +
      0.3 * DEFAULT_CONFIG.heat_exposure_weight + 0.45 * DEFAULT_CONFIG.traffic_speed_weight : ℝ) = 0.3712 by
    unfold DEFAULT_CONFIG; norm_num]
  rw [round3_eq_down 371 (by norm_num) (by norm_num)]
  norm_num [risk_category_of]

/-- Claim C3: for any six factor scores, if the configured weights sum
outside [0.99, 1.01] then `calculate_composite_risk_index` returns the
unweighted arithmetic mean of the six scores rounded to 3 decimals with the
category derived from that rounded mean; if the sum lies within
[0.99, 1.01] it returns the weighted sum rounded to 3 decimals with the
category derived from it. In either case the calculation is total. -/
theorem weight_sum_fallback (c b e a h t : ℝ) (config : RiskConfig) :
    (config.total_weight < 0.99 ∨ 1.01 < config.total_weight →
      calculate_composite_risk_index c b e a h t config =
        { composite_risk_index := round3 ((c + b + e + a + h + t) / 6.0),
          risk_category := risk_category_of (round3 ((c + b + e + a + h + t) / 6.0)) }) ∧
    (0.99 ≤ config.total_weight ∧ config.total_weight ≤ 1.01 →
      calculate_composite_risk_index c b e a h t config =
        { composite_risk_index := round3 (c * config.crime_weight +
            b * config.blight_weight + e * config.emergency_response_weight +
            a * config.air_quality_weight + h * config.heat_exposure_weight +
            t * config.traffic_speed_weight),
          risk_category := risk_category_of (round3 (c * config.crime_weight +
            b * config.blight_weight + e * config.emergency_response_weight +
            a * config.air_quality_weight + h * config.heat_exposure_weight +
            t * config.traffic_speed_weight)) }) := by
  constructor
  · intro hout
    apply calculate_composite_risk_index_of_not_validate
    unfold RiskConfig.validate
    rcases hout with h1 | h1 <;> intro hv <;> rcases hv with ⟨hlo, hhi⟩ <;> linarith
  · intro hin
    exact calculate_composite_risk_index_of_validate c b e a h t config hin

/-- Claim C3 (witness): a config whose weights sum to 0.5 degrades the
composite for six scores of 0.6 to the unweighted mean 0.6, category
"high". -/
theorem weight_sum_fallback_witness :
    half_weight_config.total_weight < 0.99 ∧
    calculate_composite_risk_index 0.6 0.6 0.6 0.6 0.6 0.6 half_weight_config =
      { composite_risk_index := 0.6, risk_category := "high" } := by
  have hw : half_weight_config.total_weight < 0.99 := by
    unfold half_weight_config RiskConfig.total_weight; norm_num
  refine ⟨hw, ?_⟩
  rw [(weight_sum_fallback 0.6 0.6 0.6 0.6 0.6 0.6 _).1 (Or.inl hw)]
  rw [show ((0.6 + 0.6 + 0.6 + 0.6 + 0.6 + 0.6 : ℝ) / 6.0) = 0.6 by norm_num]
  rw [round3_eq_down 600 (by norm_num) (by norm_num)]
  norm_num [risk_category_of]

/-- Claim C5 (counterexample): for a fixed RiskConfig whose weights sum to
1.0 but whose crime weight is negative, increasing the crime score from 0
to 1 strictly decreases the composite index (0.625 to 0.375) and moves the
category backward (high to moderate), so the claim fails for arbitrary
fixed weights. -/
theorem category_monotonicity_counterexample :
    (calculate_composite_risk_index 1 0.5 0.5 0.5 0.5 0.5 negative_weight_config).composite_risk_index <
      (calculate_composite_risk_index 0 0.5 0.5 0.5 0.5 0.5 negative_weight_config).composite_risk_index ∧
    category_rank ((calculate_composite_risk_index 1 0.5 0.5 0.5 0.5 0.5 negative_weight_config).risk_category) <
      category_rank ((calculate_composite_risk_index 0 0.5 0.5 0.5 0.5 0.5 negative_weight_config).risk_category) := by
  have hv : negative_weight_config.validate := by
    constructor <;> (unfold negative_weight_config RiskConfig.total_weight; norm_num)
  rw [calculate_composite_risk_index_of_validate _ _ _ _ _ _ _ hv,
    calculate_composite_risk_index_of_validate _ _ _ _ _ _ _ hv]
  rw [show ((1:ℝ) * negative_weight_config.crime_weight + 0.5 * negative_weight_config.blight_weight +
      0.5 * negative_weight_config.emergency_response_weight + 0.5 * negative_weight_config.air_quality_weight +
      0.5 * negative_weight_config.heat_exposure_weight + 0.5 * negative_weight_config.traffic_speed_weight) = 0.375 by
    unfold negative_weight_config; norm_num]
  rw [show ((0:ℝ) * negative_weight_config.crime_weight + 0.5 * negative_weight_config.blight_weight +
      0.5 * negative_weight_config.emergency_response_weight + 0.5 * negative_weight_config.air_quality_weight +
      0.5 * negative_weight_config.heat_exposure_weight + 0.5 * negative_weight_config.traffic_speed_weight) = 0.625 by
    unfold negative_weight_config; norm_num]
  rw [round3_eq_down 375 (by norm_num) (by norm_num)]
  rw [round3_eq_down 625 (by norm_num) (by norm_num)]
  norm_num [risk_category_of]
  decide

/-- Claim C5 (amended): for a fixed RiskConfig with non-negative weights,
raising factor scores pointwise (in particular raising any single score
while holding the other five constant) never decreases the composite index
returned by `calculate_composite_risk_index` and never moves the category
backward in the order low < moderate < high < critical. -/
theorem category_monotonicity (config : RiskConfig)
    (hw1 : 0 ≤ config.crime_weight) (hw2 : 0 ≤ config.blight_weight)
    (hw3 : 0 ≤ config.emergency_response_weight) (hw4 : 0 ≤ config.air_quality_weight)
    (hw5 : 0 ≤ config.heat_exposure_weight) (hw6 : 0 ≤ config.traffic_speed_weight)
    (c b e a h t c' b' e' a' h' t' : ℝ)
    (hc : c ≤ c') (hb : b ≤ b') (he : e ≤ e') (ha : a ≤ a') (hh : h ≤ h') (ht : t ≤ t') :
    (calculate_composite_risk_index c b e a h t config).composite_risk_index ≤
      (calculate_composite_risk_index c' b' e' a' h' t' config).composite_risk_index ∧
    category_rank ((calculate_composite_risk_index c b e a h t config).risk_category) ≤
      category_rank ((calculate_composite_risk_index c' b' e' a' h' t' config).risk_category) := by
  by_cases hv : config.validate
  · rw [calculate_composite_risk_index_of_validate c b e a h t config hv,
      calculate_composite_risk_index_of_validate c' b' e' a' h' t' config hv]
    have hsum : c * config.crime_weight + b * config.blight_weight +
        e * config.emergency_response_weight + a * config.air_quality_weight +
        h * config.heat_exposure_weight + t * config.traffic_speed_weight ≤
        c' * config.crime_weight + b' * config.blight_weight +
        e' * config.emergency_response_weight + a' * config.air_quality_weight +
        h' * config.heat_exposure_weight + t' * config.traffic_speed_weight := by
      gcongr
    exact ⟨round3_mono hsum, category_rank_mono (round3_mono hsum)⟩
  · rw [calculate_composite_risk_index_of_not_validate c b e a h t config hv,
      calculate_composite_risk_index_of_not_validate c' b' e' a' h' t' config hv]
    have hsum : (c + b + e + a + h + t) / 6.0 ≤ (c' + b' + e' + a' + h' + t') / 6.0 := by
      linarith
    exact ⟨round3_mono hsum, category_rank_mono (round3_mono hsum)⟩

/-- Claim C5 (witness): with the default (non-negative) weights, raising
the crime score from 0 to 1 does not decrease the composite index or move
the category backward. -/
theorem category_monotonicity_witness :
    (0:ℝ) ≤ DEFAULT_CONFIG.crime_weight ∧
    (calculate_composite_risk_index 0 0 0 0 0 0 DEFAULT_CONFIG).composite_risk_index ≤
      (calculate_composite_risk_index 1 0 0 0 0 0 DEFAULT_CONFIG).composite_risk_index ∧
    category_rank ((calculate_composite_risk_index 0 0 0 0 0 0 DEFAULT_CONFIG).risk_category) ≤
      category_rank ((calculate_composite_risk_index 1 0 0 0 0 0 DEFAULT_CONFIG).risk_category) := by
  have hmain := category_monotonicity DEFAULT_CONFIG
    (by unfold DEFAULT_CONFIG; norm_num) (by unfold DEFAULT_CONFIG; norm_num)
    (by unfold DEFAULT_CONFIG; norm_num) (by unfold DEFAULT_CONFIG; norm_num)
    (by unfold DEFAULT_CONFIG; norm_num) (by unfold DEFAULT_CONFIG; norm_num)
    0 0 0 0 0 0 1 0 0 0 0 0
    (by norm_num) le_rfl le_rfl le_rfl le_rfl le_rfl
  exact ⟨by unfold DEFAULT_CONFIG; norm_num, hmain.1, hmain.2⟩

/-- Claim C7 (counterexample): in the blight weighted sum, one abandoned
building adds 3.0 while one code violation adds 2.0, so a building does not
weigh three times a violation's per-unit weight. -/
theorem blight_weighting_counterexample :
    ¬ (blight_weighted_sum 1 0 0 - blight_weighted_sum 0 0 0 =
        3 * (blight_weighted_sum 0 0 1 - blight_weighted_sum 0 0 0)) := by
  unfold blight_weighted_sum
  norm_num

/-- Claim C7 (amended): in the weighted sum of `calculate_blight_score`
(which is divided by blight_max_properties times 6 and clamped to 1), each
abandoned building contributes three times the per-unit weight of a vacant
lot and 1.5 times (two-thirds of the claimed factor) the per-unit weight of
a code violation, for all counts. -/
theorem blight_weighting (abandoned_buildings vacant_lots code_violations : ℝ)
    (config : RiskConfig) :
    blight_weighted_sum (abandoned_buildings + 1) vacant_lots code_violations -
        blight_weighted_sum abandoned_buildings vacant_lots code_violations =
      3 * (blight_weighted_sum abandoned_buildings (vacant_lots + 1) code_violations -
        blight_weighted_sum abandoned_buildings vacant_lots code_violations) ∧
    2 * (blight_weighted_sum (abandoned_buildings + 1) vacant_lots code_violations -
        blight_weighted_sum abandoned_buildings vacant_lots code_violations) =
      3 * (blight_weighted_sum abandoned_buildings vacant_lots (code_violations + 1) -
        blight_weighted_sum abandoned_buildings vacant_lots code_violations) ∧
    calculate_blight_score abandoned_buildings vacant_lots code_violations config =
      round3 (min 1.0 (blight_weighted_sum abandoned_buildings vacant_lots code_violations /
        (config.blight_max_properties * 6.0))) := by
  refine ⟨by unfold blight_weighted_sum; ring, by unfold blight_weighted_sum; ring, rfl⟩

/-- Score formula modelled from the wording of claim C8, for comparison
with the source definition: both speed overages measured against the same
safe-speed threshold (with no extra offset on the 85th percentile), and no
rounding. -/
noncomputable def claimed_traffic_speed_score
    (avg_speed_mph percentile_85_speed_mph : ℝ) (pedestrian_volume : ℤ)
    (road_type : String) (config : RiskConfig) : ℝ :=
  min 1.0 (pedestrian_multiplier pedestrian_volume * min 1.0
    (0.6 * max 0.0 ((avg_speed_mph - traffic_safe_threshold road_type) /
        (config.traffic_speed_max_mph - traffic_safe_threshold road_type)) +
     0.4 * max 0.0 ((percentile_85_speed_mph - traffic_safe_threshold road_type) /
        (config.traffic_speed_max_mph - traffic_safe_threshold road_type))))

/-- Claim C8 (counterexample): at average speed 25 mph, 85th percentile 45
mph, 10 pedestrians/day on a residential road with the default config, the
source computes 0.1 (it subtracts an extra 10 mph from the 85th-percentile
overage) while the claimed formula gives 0.2. -/
theorem traffic_speed_score_counterexample :
    calculate_traffic_speed_score 25 45 10 "residential" DEFAULT_CONFIG = 0.1 ∧
    claimed_traffic_speed_score 25 45 10 "residential" DEFAULT_CONFIG = 0.2 ∧
    (0.1 : ℝ) ≠ 0.2 := by
  refine ⟨?_, ?_, by norm_num⟩
  · unfold calculate_traffic_speed_score traffic_safe_threshold pedestrian_multiplier DEFAULT_CONFIG
    norm_num
    rw [round3_eq_down 100 (by norm_num) (by norm_num)]
    norm_num
  · unfold claimed_traffic_speed_score traffic_safe_threshold pedestrian_multiplier DEFAULT_CONFIG
    norm_num

/-- Claim C8 (amended): for every average speed, 85th-percentile speed,
pedestrian volume and road type, `calculate_traffic_speed_score` equals
round3(min(1, M times min(1, 0.6 max(0,(avg-T)/(Smax-T)) +
0.4 max(0,(p85-T-10)/(Smax-T))))) — the 85th-percentile overage is measured
against T + 10, not T — where T is the road-type safe-speed threshold
(residential 25, arterial 35, highway 55, default 25) and M the pedestrian
multiplier (1.0 below 50/day, 1.3 from 50 to below 200/day, 1.6 at or
above 200/day). -/
theorem traffic_speed_score_formula
    (avg_speed_mph percentile_85_speed_mph : ℝ) (pedestrian_volume : ℤ)
    (road_type : String) (config : RiskConfig) :
    calculate_traffic_speed_score avg_speed_mph percentile_85_speed_mph
        pedestrian_volume road_type config =
      round3 (min 1.0 (pedestrian_multiplier pedestrian_volume * min 1.0
        (0.6 * max 0.0 ((avg_speed_mph - traffic_safe_threshold road_type) /
            (config.traffic_speed_max_mph - traffic_safe_threshold road_type)) +
         0.4 * max 0.0 ((percentile_85_speed_mph - traffic_safe_threshold road_type - 10) /
            (config.traffic_speed_max_mph - traffic_safe_threshold road_type))))) ∧
    traffic_safe_threshold "residential" = 25 ∧
    traffic_safe_threshold "arterial" = 35 ∧
    traffic_safe_threshold "highway" = 55 ∧
    traffic_safe_threshold "unclassified" = 25 ∧
    pedestrian_multiplier 49 = 1.0 ∧ pedestrian_multiplier 50 = 1.3 ∧
    pedestrian_multiplier 199 = 1.3 ∧ pedestrian_multiplier 200 = 1.6 := by
  refine ⟨?_, rfl, rfl, rfl, rfl, rfl, rfl, rfl, rfl⟩
  unfold calculate_traffic_speed_score
  rw [mul_comm]

/-- Python's math.atan2 on real arguments (signed zeros and infinities,
which do not exist in this model, aside). -/
noncomputable def atan2 (y x : ℝ) : ℝ :=
  if 0 < x then Real.arctan (y / x)
  else if x < 0 then
    (if 0 ≤ y then Real.arctan (y / x) + Real.pi else Real.arctan (y / x) - Real.pi)
  else if 0 < y then Real.pi / 2
  else if y < 0 then -(Real.pi / 2)
  else 0

/-- Python's math.radians. -/
noncomputable def radians (x : ℝ) : ℝ := x * (Real.pi / 180)

/-- Source function `haversine_distance`: great-circle distance in meters,
Earth radius 6,371,000 m. -/
noncomputable def haversine_distance (lat1 lng1 lat2 lng2 : ℝ) : ℝ :=
  let R : ℝ := 6371000
  let phi1 := radians lat1
  let phi2 := radians lat2
  let delta_phi := radians (lat2 - lat1)
  let delta_lambda := radians (lng2 - lng1)
  let a := Real.sin (delta_phi / 2) ^ 2 +
    Real.cos phi1 * Real.cos phi2 * Real.sin (delta_lambda / 2) ^ 2
  let c := 2 * atan2 (Real.sqrt a) (Real.sqrt (1 - a))
  R * c

/-- One entry of the `nearby_blocks` argument of `apply_spatial_smoothing`
(a dict with keys lat, lng, composite_risk_index in the source). -/
structure NearbyBlock where
  lat : ℝ
  lng : ℝ
  composite_risk_index : ℝ

/-- One iteration of the accumulation loop inside `apply_spatial_smoothing`:
the accumulator carries (total_weight, weighted_risk). -/
noncomputable def smoothing_step (target_lat target_lng : ℝ) (config : RiskConfig)
    (acc : ℝ × ℝ) (block : NearbyBlock) : ℝ × ℝ :=
  let distance := haversine_distance target_lat target_lng block.lat block.lng
  if distance ≤ config.spatial_radius_meters then
    let weight := config.spatial_decay_factor ^ (distance / config.spatial_radius_meters)
    (acc.1 + weight, acc.2 + block.composite_risk_index * weight)
  else acc

/-- Source function `apply_spatial_smoothing`: early return of `target_risk`
on an empty neighbor list, otherwise the loop over neighbors followed by
`round(weighted_risk / total_weight, 3)`. -/
noncomputable def apply_spatial_smoothing (target_lat target_lng target_risk : ℝ)
    (nearby_blocks : List NearbyBlock) (config : RiskConfig) : ℝ :=
  if nearby_blocks = [] then target_risk
  else
    let acc := nearby_blocks.foldl (smoothing_step target_lat target_lng config) (1.0, target_risk * 1.0)
    round3 (acc.2 / acc.1)

/-- The weight a single neighbor receives in `apply_spatial_smoothing`:
`decay_factor ** (distance / radius)` within the spatial radius, zero
beyond it. -/
noncomputable def neighbor_weight (target_lat target_lng : ℝ) (config : RiskConfig)
    (block : NearbyBlock) : ℝ :=
  if haversine_distance target_lat target_lng block.lat block.lng ≤ config.spatial_radius_meters then
    config.spatial_decay_factor ^
      (haversine_distance target_lat target_lng block.lat block.lng / config.spatial_radius_meters)
  else 0

/-- The neighbor loop of `apply_spatial_smoothing`, characterized as sums
of per-neighbor weights over the whole list. -/
theorem smoothing_foldl (target_lat target_lng : ℝ) (config : RiskConfig)
    (ns : List NearbyBlock) (acc : ℝ × ℝ) :
    ns.foldl (smoothing_step target_lat target_lng config) acc =
      (acc.1 + (ns.map (neighbor_weight target_lat target_lng config)).sum,
       acc.2 + (ns.map (fun b => b.composite_risk_index *
         neighbor_weight target_lat target_lng config b)).sum) := by
  induction ns generalizing acc with
  | nil => simp
  | cons head tail ih =>
    simp only [List.foldl_cons, List.map_cons, List.sum_cons]
    rw [ih]
    unfold smoothing_step neighbor_weight
    dsimp only
    split_ifs with hd
    · rw [Prod.mk.injEq]
      constructor <;> ring
    · rw [Prod.mk.injEq]
      constructor <;> ring

/-- Closed form of `apply_spatial_smoothing` for a nonempty neighbor
list. -/
theorem apply_spatial_smoothing_eq_formula (target_lat target_lng target_risk : ℝ)
    (ns : List NearbyBlock) (config : RiskConfig) (hne : ns ≠ []) :
    apply_spatial_smoothing target_lat target_lng target_risk ns config =
      round3 ((target_risk * 1.0 + (ns.map (fun b => b.composite_risk_index *
          neighbor_weight target_lat target_lng config b)).sum) /
        (1.0 + (ns.map (neighbor_weight target_lat target_lng config)).sum)) := by
  unfold apply_spatial_smoothing
  rw [if_neg hne, smoothing_foldl]

/-- When every supplied neighbor lies strictly beyond the spatial radius,
smoothing degenerates to rounding the target risk. -/
theorem apply_spatial_smoothing_of_no_neighbor_in_radius
    (target_lat target_lng target_risk : ℝ) (ns : List NearbyBlock) (config : RiskConfig)
    (hne : ns ≠ [])
    (hfar : ∀ b ∈ ns, config.spatial_radius_meters <
      haversine_distance target_lat target_lng b.lat b.lng) :
    apply_spatial_smoothing target_lat target_lng target_risk ns config = round3 target_risk := by
  rw [apply_spatial_smoothing_eq_formula target_lat target_lng target_risk ns config hne]
  have hw : ∀ b ∈ ns, neighbor_weight target_lat target_lng config b = 0 := by
    intro b hb
    unfold neighbor_weight
    rw [if_neg (not_le.mpr (hfar b hb))]
  have h1 : (ns.map (neighbor_weight target_lat target_lng config)).sum = 0 := by
    apply List.sum_eq_zero
    intro x hx
    rcases List.mem_map.mp hx with ⟨b, hb, rfl⟩
    exact hw b hb
  have h2 : (ns.map (fun b => b.composite_risk_index *
      neighbor_weight target_lat target_lng config b)).sum = 0 := by
    apply List.sum_eq_zero
    intro x hx
    rcases List.mem_map.mp hx with ⟨b, hb, rfl⟩
    rw [hw b hb, mul_zero]
  rw [h1, h2]
  norm_num

/-- Conversion of 90 degrees to radians. -/
theorem radians_ninety : radians 90 = Real.pi / 2 := by
  unfold radians; ring

/-- Haversine distance from the equator point (0,0) to the north pole
(90,0): a quarter of the Earth's circumference, far beyond any default
spatial radius. -/
theorem haversine_0_0_90_0 : haversine_distance 0 0 90 0 = 6371000 * (Real.pi / 2) := by
  unfold haversine_distance
  dsimp only
  rw [show (90 : ℝ) - 0 = 90 by norm_num, show (0 : ℝ) - 0 = 0 by norm_num]
  rw [radians_ninety]
  rw [show radians 0 = 0 by unfold radians; ring]
  rw [show (0:ℝ) / 2 = 0 by norm_num]
  rw [Real.sin_zero, Real.cos_zero, Real.cos_pi_div_two]
  rw [show Real.pi / 2 / 2 = Real.pi / 4 by ring]
  rw [Real.sin_pi_div_four]
  rw [show (Real.sqrt 2 / 2) ^ 2 + 1 * 0 * 0 ^ 2 = Real.sqrt 2 ^ 2 / 4 by ring]
  rw [Real.sq_sqrt (by norm_num : (2:ℝ) ≥ 0)]
  norm_num
  have hpos : 0 < (Real.sqrt 2)⁻¹ := by positivity
  unfold atan2
  rw [if_pos hpos, div_self (ne_of_gt hpos), Real.arctan_one]
  ring

/-- Claim C4 (amended): for every target coordinate, target index, NONEMPTY
neighbor list, and config with positive spatial radius and decay factor in
(0,1], `apply_spatial_smoothing` returns
(target_index + sum of neighbor_index*weight) / (1 + sum of weight) rounded
to 3 decimals, where neighbors beyond the haversine radius get weight 0 and
included neighbors get weight decay_factor^(distance/radius) (weight 1 at
distance 0 and decay_factor at distance = radius). The empty neighbor list
is the one exception to the claim: it returns the target index unrounded
(see the counterexample). -/
theorem spatial_smoothing_formula (target_lat target_lng target_risk : ℝ)
    (ns : List NearbyBlock) (config : RiskConfig)
    (hne : ns ≠ []) (hr : 0 < config.spatial_radius_meters)
    (hd0 : 0 < config.spatial_decay_factor) (hd1 : config.spatial_decay_factor ≤ 1) :
    apply_spatial_smoothing target_lat target_lng target_risk ns config =
      round3 ((target_risk * 1.0 + (ns.map (fun b => b.composite_risk_index *
          neighbor_weight target_lat target_lng config b)).sum) /
        (1.0 + (ns.map (neighbor_weight target_lat target_lng config)).sum)) ∧
    (∀ b : NearbyBlock, config.spatial_radius_meters <
        haversine_distance target_lat target_lng b.lat b.lng →
      neighbor_weight target_lat target_lng config b = 0) ∧
    config.spatial_decay_factor ^ ((0 : ℝ) / config.spatial_radius_meters) = 1 ∧
    config.spatial_decay_factor ^
        (config.spatial_radius_meters / config.spatial_radius_meters) =
      config.spatial_decay_factor := by
  refine ⟨apply_spatial_smoothing_eq_formula target_lat target_lng target_risk ns config hne,
    ?_, ?_, ?_⟩
  · intro b hb
    unfold neighbor_weight
    rw [if_neg (not_le.mpr hb)]
  · rw [zero_div, Real.rpow_zero]
  · rw [div_self (ne_of_gt hr), Real.rpow_one]

/-- Claim C4 (witness): the formula instantiated for one neighbor at the
target's own coordinates under the default config. -/
theorem spatial_smoothing_formula_witness :
    ([(⟨0, 0, 0.5⟩ : NearbyBlock)] ≠ []) ∧
    (0 : ℝ) < DEFAULT_CONFIG.spatial_radius_meters ∧
    (0 : ℝ) < DEFAULT_CONFIG.spatial_decay_factor ∧
    DEFAULT_CONFIG.spatial_decay_factor ≤ 1 ∧
    apply_spatial_smoothing 0 0 0.7 [⟨0, 0, 0.5⟩] DEFAULT_CONFIG =
      round3 ((0.7 * 1.0 + (([⟨0, 0, 0.5⟩] : List NearbyBlock).map
          (fun b => b.composite_risk_index * neighbor_weight 0 0 DEFAULT_CONFIG b)).sum) /
        (1.0 + (([⟨0, 0, 0.5⟩] : List NearbyBlock).map
          (neighbor_weight 0 0 DEFAULT_CONFIG)).sum)) := by
  refine ⟨by simp, by unfold DEFAULT_CONFIG; norm_num, by unfold DEFAULT_CONFIG; norm_num,
    by unfold DEFAULT_CONFIG; norm_num, ?_⟩
  exact (spatial_smoothing_formula 0 0 0.7 [⟨0, 0, 0.5⟩] DEFAULT_CONFIG (by simp)
    (by unfold DEFAULT_CONFIG; norm_num) (by unfold DEFAULT_CONFIG; norm_num)
    (by unfold DEFAULT_CONFIG; norm_num)).1

/-- Claim C4 (counterexample): on the empty neighbor list the source
returns the target index unrounded (0.1234) while the claimed formula gives
round3(0.1234) = 0.123, so the claim fails as stated for every neighbor
list. -/
theorem spatial_smoothing_formula_counterexample :
    apply_spatial_smoothing 0 0 0.1234 [] DEFAULT_CONFIG = 0.1234 ∧
    round3 ((0.1234 * 1.0 + (([] : List NearbyBlock).map (fun b => b.composite_risk_index *
        neighbor_weight 0 0 DEFAULT_CONFIG b)).sum) /
      (1.0 + (([] : List NearbyBlock).map (neighbor_weight 0 0 DEFAULT_CONFIG)).sum)) = 0.123 ∧
    (0.1234 : ℝ) ≠ 0.123 := by
  refine ⟨?_, ?_, by norm_num⟩
  · unfold apply_spatial_smoothing
    rw [if_pos rfl]
  · rw [List.map_nil, List.sum_nil, List.map_nil, List.sum_nil]
    rw [show ((0.1234 * 1.0 + 0) / (1.0 + 0) : ℝ) = 0.1234 by norm_num]
    rw [round3_eq_down 123 (by norm_num) (by norm_num)]
    norm_num

/-- Claim C6 (amended): an empty neighbor list returns the target index
unchanged; a nonempty neighbor list none of whose members lies within
spatial_radius_meters returns round3(target index) — the identity only up
to 3-decimal rounding (exact identity whenever the target index is already
rounded to 3 decimals, as every composite index produced by the calculator
is). Neither case is an error. -/
theorem smoothing_identity (target_lat target_lng target_risk : ℝ)
    (ns : List NearbyBlock) (config : RiskConfig) :
    apply_spatial_smoothing target_lat target_lng target_risk [] config = target_risk ∧
    (ns ≠ [] → (∀ b ∈ ns, config.spatial_radius_meters <
        haversine_distance target_lat target_lng b.lat b.lng) →
      apply_spatial_smoothing target_lat target_lng target_risk ns config =
        round3 target_risk) := by
  constructor
  · unfold apply_spatial_smoothing
    rw [if_pos rfl]
  · intro hne hfar
    exact apply_spatial_smoothing_of_no_neighbor_in_radius
      target_lat target_lng target_risk ns config hne hfar

/-- Claim C6 (witness): identity on the empty list, and rounding-identity
for a single neighbor at the north pole, far outside the 500 m default
radius. -/
theorem smoothing_identity_witness :
    apply_spatial_smoothing 0 0 0.7 [] DEFAULT_CONFIG = 0.7 ∧
    apply_spatial_smoothing 0 0 0.7 [⟨90, 0, 0.9⟩] DEFAULT_CONFIG = round3 0.7 := by
  constructor
  · exact (smoothing_identity 0 0 0.7 [] DEFAULT_CONFIG).1
  · apply (smoothing_identity 0 0 0.7 [⟨90, 0, 0.9⟩] DEFAULT_CONFIG).2 (by simp)
    intro b hb
    rw [List.mem_singleton] at hb
    subst hb
    show DEFAULT_CONFIG.spatial_radius_meters < haversine_distance 0 0 90 0
    rw [haversine_0_0_90_0]
    unfold DEFAULT_CONFIG
    have hpi := Real.pi_gt_three
    norm_num
    linarith

/-- Claim C6 (counterexample): with target index 0.1234 and one neighbor
beyond the radius, the source returns 0.123, not the unchanged target
index: the out-of-radius case applies round3 where the empty-list case does
not. -/
theorem smoothing_identity_counterexample :
    apply_spatial_smoothing 0 0 0.1234 [⟨90, 0, 0.9⟩] DEFAULT_CONFIG = 0.123 ∧
    (0.123 : ℝ) ≠ 0.1234 := by
  refine ⟨?_, by norm_num⟩
  have h := apply_spatial_smoothing_of_no_neighbor_in_radius 0 0 0.1234
    [⟨90, 0, 0.9⟩] DEFAULT_CONFIG (by simp) ?_
  · rw [h, round3_eq_down 123 (by norm_num) (by norm_num)]
    norm_num
  · intro b hb
    rw [List.mem_singleton] at hb
    subst hb
    show DEFAULT_CONFIG.spatial_radius_meters < haversine_distance 0 0 90 0
    rw [haversine_0_0_90_0]
    unfold DEFAULT_CONFIG
    have hpi := Real.pi_gt_three
    norm_num
    linarith

/-- The crime_data payload of `calculate_risk_for_block`; absent dict keys
are `none`. -/
structure CrimeData where
  incidents_per_month : Option ℝ := none
  severity_multiplier : Option ℝ := none

/-- The blight_data payload. -/
structure BlightData where
  abandoned_buildings : Option ℝ := none
  vacant_lots : Option ℝ := none
  code_violations : Option ℝ := none

/-- The emergency_data payload. -/
structure EmergencyData where
  avg_response_time_minutes : Option ℝ := none
  percentile_90_time_minutes : Option ℝ := none

/-- The air_quality_data payload. -/
structure AirQualityData where
  aqi_value : Option ℝ := none
  pm25_concentration : Option ℝ := none

/-- The heat_data payload. -/
structure HeatData where
  avg_temperature_celsius : Option ℝ := none
  max_temperature_celsius : Option ℝ := none
  tree_canopy_percent : Option ℝ := none
  impervious_surface_percent : Option ℝ := none

/-- The traffic_data payload. -/
structure TrafficData where
  avg_speed_mph : Option ℝ := none
  percentile_85_speed_mph : Option ℝ := none
  pedestrian_volume : Option ℤ := none
  road_type : Option String := none

/-- The dictionary returned by `calculate_risk_for_block`. The source also
stores a `last_calculated_at := datetime.now()` wall-clock timestamp, which
has no counterpart in this pure model. -/
structure BlockRiskProfile where
  block_id : String
  lat : ℝ
  lng : ℝ
  crime_score : ℝ
  blight_score : ℝ
  emergency_response_score : ℝ
  air_quality_score : ℝ
  heat_exposure_score : ℝ
  traffic_speed_score : ℝ
  composite_risk_index : ℝ
  risk_category : String

/-- Source function `calculate_risk_for_block`: applies the six normalizers
to the raw payloads (missing fields replaced by the fixed defaults via
`dict.get`) and assembles the composite. -/
noncomputable def calculate_risk_for_block (block_id : String) (lat lng : ℝ)
    (crime_data : CrimeData) (blight_data : BlightData)
    (emergency_data : EmergencyData) (air_quality_data : AirQualityData)
    (heat_data : HeatData) (traffic_data : TrafficData)
    (config : RiskConfig) : BlockRiskProfile :=
  let crime_score := calculate_crime_score
    (crime_data.incidents_per_month.getD 0)
    (crime_data.severity_multiplier.getD 1.0) config
  let blight_score := calculate_blight_score
    (blight_data.abandoned_buildings.getD 0)
    (blight_data.vacant_lots.getD 0)
    (blight_data.code_violations.getD 0) config
  let emergency_score := calculate_emergency_response_score
    (emergency_data.avg_response_time_minutes.getD 0)
    (emergency_data.percentile_90_time_minutes.getD 0) config
  let air_quality_score := calculate_air_quality_score
    (air_quality_data.aqi_value.getD 0)
    air_quality_data.pm25_concentration config
  let heat_score := calculate_heat_exposure_score
    (heat_data.avg_temperature_celsius.getD 20)
    (heat_data.max_temperature_celsius.getD 25)
    (heat_data.tree_canopy_percent.getD 30)
    (heat_data.impervious_surface_percent.getD 50) config
  let traffic_score := calculate_traffic_speed_score
    (traffic_data.avg_speed_mph.getD 25)
    (traffic_data.percentile_85_speed_mph.getD 30)
    (traffic_data.pedestrian_volume.getD 50)
    (traffic_data.road_type.getD "residential") config
  let composite_result := calculate_composite_risk_index crime_score blight_score
    emergency_score air_quality_score heat_score traffic_score config
  { block_id := block_id
    lat := lat
    lng := lng
    crime_score := crime_score
    blight_score := blight_score
    emergency_response_score := emergency_score
    air_quality_score := air_quality_score
    heat_exposure_score := heat_score
    traffic_speed_score := traffic_score
    composite_risk_index := composite_result.composite_risk_index
    risk_category := composite_result.risk_category }

/-- Crime score on the default inputs (0 incidents, multiplier 1.0). -/
theorem crime_score_zero (config : RiskConfig) : calculate_crime_score 0 1.0 config = 0 := by
  unfold calculate_crime_score
  rw [show (0 : ℝ) * 1.0 / config.crime_max_incidents = 0 by rw [zero_mul, zero_div]]
  rw [show min (1.0 : ℝ) 0 = 0 by norm_num]
  exact round3_zero

/-- Blight score on the default inputs (all counts 0). -/
theorem blight_score_zero (config : RiskConfig) : calculate_blight_score 0 0 0 config = 0 := by
  unfold calculate_blight_score
  rw [show blight_weighted_sum 0 0 0 = 0 by unfold blight_weighted_sum; norm_num]
  rw [zero_div]
  rw [show min (1.0 : ℝ) 0 = 0 by norm_num]
  exact round3_zero

/-- Emergency score on the default inputs (both times 0). -/
theorem emergency_score_zero (config : RiskConfig) :
    calculate_emergency_response_score 0 0 config = 0 := by
  unfold calculate_emergency_response_score
  rw [zero_div, show (0.7 : ℝ) * 0 + 0.3 * 0 = 0 by norm_num, Real.sqrt_zero]
  rw [show min (1.0 : ℝ) 0 = 0 by norm_num]
  exact round3_zero

/-- Air quality score on the default inputs (AQI 0, no PM2.5). -/
theorem air_quality_score_zero (config : RiskConfig) :
    calculate_air_quality_score 0 none config = 0 := by
  unfold calculate_air_quality_score
  rw [if_pos (by norm_num : (0:ℝ) ≤ 50)]
  dsimp only
  rw [show min 1.0 ((0 : ℝ) / 200.0) = 0 by norm_num]
  exact round3_zero

/-- Heat score on the default inputs (20 deg avg, 25 deg max, 30% canopy,
50% impervious): the whole temperature component vanishes and the
environment component contributes 0.4 * 0.6 = 0.24, for any config. -/
theorem heat_score_default_inputs (config : RiskConfig) :
    calculate_heat_exposure_score 20 25 30 50 config = 0.24 := by
  unfold calculate_heat_exposure_score
  dsimp only
  rw [show ((20 : ℝ) - 20) = 0 by norm_num, show ((25 : ℝ) - 25) = 0 by norm_num,
    zero_div, zero_div]
  rw [show (0.6 * max 0.0 (0.6 * min 1.0 (0 : ℝ) + 0.4 * min 1.0 (0 : ℝ)) +
      0.4 * (0.5 * (1.0 - (30 : ℝ) / 100.0) + 0.5 * ((50 : ℝ) / 100.0))) = 0.24 by norm_num]
  rw [round3_eq_down 240 (by norm_num) (by norm_num)]
  norm_num

/-- Traffic score on the default inputs (25 mph avg, 30 mph p85, 50
pedestrians/day, residential road). -/
theorem traffic_score_default_inputs (config : RiskConfig)
    (h25 : 25 < config.traffic_speed_max_mph) :
    calculate_traffic_speed_score 25 30 50 "residential" config = 0 := by
  unfold calculate_traffic_speed_score
  rw [show traffic_safe_threshold "residential" = 25 from rfl]
  dsimp only
  rw [show ((25 : ℝ) - 25) = 0 by norm_num, show ((30 : ℝ) - 25 - 10) = -5 by norm_num,
    zero_div]
  have hneg : (-5 : ℝ) / (config.traffic_speed_max_mph - 25) ≤ 0.0 := by
    have hd : (-5 : ℝ) / (config.traffic_speed_max_mph - 25) < 0 :=
      div_neg_of_neg_of_pos (by norm_num) (by linarith)
    linarith
  rw [max_eq_left hneg]
  rw [show ((0.6 : ℝ) * max 0.0 0 + 0.4 * 0.0) = 0 by norm_num]
  rw [show min (1.0 : ℝ) 0 = 0 by norm_num, zero_mul]
  rw [show min (1.0 : ℝ) 0 = 0 by norm_num]
  exact round3_zero

/-- Composite of the six default-input factor scores under the default
config. -/
theorem composite_empty : calculate_composite_risk_index 0 0 0 0 0.24 0 DEFAULT_CONFIG =
    { composite_risk_index := 0.024, risk_category := "low" } := by
  rw [calculate_composite_risk_index_of_validate _ _ _ _ _ _ _
    (by constructor <;> (unfold RiskConfig.total_weight DEFAULT_CONFIG; norm_num))]
  rw [show ((0:ℝ) * DEFAULT_CONFIG.crime_weight + 0 * DEFAULT_CONFIG.blight_weight +
      0 * DEFAULT_CONFIG.emergency_response_weight + 0 * DEFAULT_CONFIG.air_quality_weight +
      0.24 * DEFAULT_CONFIG.heat_exposure_weight + 0 * DEFAULT_CONFIG.traffic_speed_weight) = 0.024 by
    unfold DEFAULT_CONFIG; norm_num]
  rw [round3_eq_down 24 (by norm_num) (by norm_num)]
  norm_num [risk_category_of]

/-- Claim C10: `calculate_risk_for_block` with six empty payloads under the
default config is total and yields crime, blight, emergency-response,
air-quality and traffic scores 0.0, heat score 0.24, composite 0.024 and
category "low" — every missing field is replaced by its fixed default. -/
theorem missing_fields_default :
    calculate_risk_for_block "BLK_0.0_0.0" 0 0 {} {} {} {} {} {} DEFAULT_CONFIG =
      { block_id := "BLK_0.0_0.0", lat := 0, lng := 0,
        crime_score := 0, blight_score := 0, emergency_response_score := 0,
        air_quality_score := 0, heat_exposure_score := 0.24, traffic_speed_score := 0,
        composite_risk_index := 0.024, risk_category := "low" } := by
  unfold calculate_risk_for_block
  dsimp only
  simp only [Option.getD_none]
  rw [crime_score_zero, blight_score_zero, emergency_score_zero,
    air_quality_score_zero, heat_score_default_inputs,
    traffic_score_default_inputs DEFAULT_CONFIG (by unfold DEFAULT_CONFIG; norm_num),
    composite_empty]

/-- Clamping below 1.0 stays at or below 1. -/
theorem min_one_le_one {x : ℝ} : min 1.0 x ≤ 1 :=
  le_trans (min_le_left _ _) (by norm_num)

/-- Clamping above 0.0 stays at or above 0. -/
theorem zero_le_max_zero {x : ℝ} : 0 ≤ max 0.0 x :=
  le_trans (by norm_num) (le_max_left _ _)

/-- Clamping a non-negative value below 1.0 stays non-negative. -/
theorem zero_le_min_one {x : ℝ} (hx : 0 ≤ x) : 0 ≤ min 1.0 x :=
  le_min (by norm_num) hx

/-- Crime score range for non-negative raw inputs and positive threshold. -/
theorem calculate_crime_score_bounds (i s : ℝ) (config : RiskConfig)
    (hi : 0 ≤ i) (hs : 0 ≤ s) (hmax : 0 < config.crime_max_incidents) :
    0 ≤ calculate_crime_score i s config ∧ calculate_crime_score i s config ≤ 1 := by
  unfold calculate_crime_score
  constructor
  · exact round3_nonneg (zero_le_min_one (div_nonneg (mul_nonneg hi hs) hmax.le))
  · exact round3_le_one min_one_le_one

/-- Blight score range for non-negative counts and positive threshold. -/
theorem calculate_blight_score_bounds (a v c : ℝ) (config : RiskConfig)
    (ha : 0 ≤ a) (hv : 0 ≤ v) (hc : 0 ≤ c) (hmax : 0 < config.blight_max_properties) :
    0 ≤ calculate_blight_score a v c config ∧ calculate_blight_score a v c config ≤ 1 := by
  unfold calculate_blight_score
  constructor
  · refine round3_nonneg (zero_le_min_one (div_nonneg ?_ ?_))
    · unfold blight_weighted_sum; linarith
    · nlinarith
  · exact round3_le_one min_one_le_one

/-- Emergency response score range: the clamp and the square root keep the
score in the unit interval for all inputs. -/
theorem calculate_emergency_response_score_bounds (avg p90 : ℝ) (config : RiskConfig) :
    0 ≤ calculate_emergency_response_score avg p90 config ∧
      calculate_emergency_response_score avg p90 config ≤ 1 := by
  unfold calculate_emergency_response_score
  exact ⟨round3_nonneg (zero_le_min_one (Real.sqrt_nonneg _)),
    round3_le_one min_one_le_one⟩

/-- Air quality score range for non-negative AQI and PM2.5. -/
theorem calculate_air_quality_score_bounds (aqi : ℝ) (pm25 : Option ℝ) (config : RiskConfig)
    (ha : 0 ≤ aqi) (hpm : ∀ p, pm25 = some p → 0 ≤ p) :
    0 ≤ calculate_air_quality_score aqi pm25 config ∧
      calculate_air_quality_score aqi pm25 config ≤ 1 := by
  unfold calculate_air_quality_score
  have hraw : 0 ≤ (if aqi ≤ 50 then aqi / 200.0
      else if aqi ≤ 100 then 0.25 + (aqi - 50) / 200.0
      else if aqi ≤ 150 then 0.5 + (aqi - 100) / 200.0
      else 0.75 + (aqi - 150) / 200.0) := by
    split_ifs <;> linarith
  have hs0 : 0 ≤ min 1.0 (if aqi ≤ 50 then aqi / 200.0
      else if aqi ≤ 100 then 0.25 + (aqi - 50) / 200.0
      else if aqi ≤ 150 then 0.5 + (aqi - 100) / 200.0
      else 0.75 + (aqi - 150) / 200.0) := zero_le_min_one hraw
  have hs1 : min 1.0 (if aqi ≤ 50 then aqi / 200.0
      else if aqi ≤ 100 then 0.25 + (aqi - 50) / 200.0
      else if aqi ≤ 150 then 0.5 + (aqi - 100) / 200.0
      else 0.75 + (aqi - 150) / 200.0) ≤ 1 := min_one_le_one
  cases pm25 with
  | none => exact ⟨round3_nonneg hs0, round3_le_one hs1⟩
  | some p =>
    have hp : 0 ≤ p := hpm p rfl
    have hm0 : 0 ≤ min 1.0 (p / 100.0) := zero_le_min_one (by positivity)
    have hm1 : min 1.0 (p / 100.0) ≤ 1 := min_one_le_one
    exact ⟨round3_nonneg (by nlinarith), round3_le_one (by nlinarith)⟩

/-- Heat exposure score range for percentage inputs in [0,100]; the
temperatures are arbitrary reals. -/
theorem calculate_heat_exposure_score_bounds (avg mx canopy imperv : ℝ) (config : RiskConfig)
    (hc0 : 0 ≤ canopy) (hc1 : canopy ≤ 100) (hi0 : 0 ≤ imperv) (hi1 : imperv ≤ 100) :
    0 ≤ calculate_heat_exposure_score avg mx canopy imperv config ∧
      calculate_heat_exposure_score avg mx canopy imperv config ≤ 1 := by
  unfold calculate_heat_exposure_score
  dsimp only
  have ht1 : min 1.0 ((avg - 20) / (config.heat_exposure_max_celsius - 20)) ≤ 1 :=
    min_one_le_one
  have ht2 : min 1.0 ((mx - 25) / (config.heat_exposure_max_celsius - 25)) ≤ 1 :=
    min_one_le_one
  have htc0 : (0:ℝ) ≤ max 0.0 (0.6 * min 1.0 ((avg - 20) / (config.heat_exposure_max_celsius - 20)) +
      0.4 * min 1.0 ((mx - 25) / (config.heat_exposure_max_celsius - 25))) := zero_le_max_zero
  have htc1 : max 0.0 (0.6 * min 1.0 ((avg - 20) / (config.heat_exposure_max_celsius - 20)) +
      0.4 * min 1.0 ((mx - 25) / (config.heat_exposure_max_celsius - 25))) ≤ 1 :=
    max_le (by norm_num) (by linarith)
  constructor
  · exact round3_nonneg (by nlinarith)
  · exact round3_le_one (by nlinarith)

/-- Traffic speed score range for all inputs. -/
theorem calculate_traffic_speed_score_bounds (avg p85 : ℝ) (ped : ℤ)
    (road : String) (config : RiskConfig) :
    0 ≤ calculate_traffic_speed_score avg p85 ped road config ∧
      calculate_traffic_speed_score avg p85 ped road config ≤ 1 := by
  unfold calculate_traffic_speed_score
  dsimp only
  have hsc0 : (0:ℝ) ≤ min 1.0 (0.6 * max 0.0 ((avg - traffic_safe_threshold road) /
      (config.traffic_speed_max_mph - traffic_safe_threshold road)) +
      0.4 * max 0.0 ((p85 - traffic_safe_threshold road - 10) /
      (config.traffic_speed_max_mph - traffic_safe_threshold road))) := by
    refine zero_le_min_one ?_
    have h1 := le_max_left 0.0 ((avg - traffic_safe_threshold road) /
      (config.traffic_speed_max_mph - traffic_safe_threshold road))
    have h2 := le_max_left 0.0 ((p85 - traffic_safe_threshold road - 10) /
      (config.traffic_speed_max_mph - traffic_safe_threshold road))
    nlinarith
  have hm0 : (0:ℝ) ≤ pedestrian_multiplier ped := by
    unfold pedestrian_multiplier
    split_ifs <;> norm_num
  constructor
  · exact round3_nonneg (zero_le_min_one (mul_nonneg hsc0 hm0))
  · exact round3_le_one min_one_le_one

/-- Rounding fixes 1.01. -/
theorem round3_one_zero_one : round3 1.01 = 1.01 := by
  rw [round3_eq_down 1010 (by norm_num) (by norm_num)]; norm_num

/-- Composite index bounds for factor scores in [0,1] and non-negative
weights passing validation: non-negative, at most 1.01 (the upper tolerance
of the weight sum), and at most 1 when the weights sum to at most 1. -/
theorem composite_index_bounds (c b e a h t : ℝ) (config : RiskConfig)
    (hw1 : 0 ≤ config.crime_weight) (hw2 : 0 ≤ config.blight_weight)
    (hw3 : 0 ≤ config.emergency_response_weight) (hw4 : 0 ≤ config.air_quality_weight)
    (hw5 : 0 ≤ config.heat_exposure_weight) (hw6 : 0 ≤ config.traffic_speed_weight)
    (hv : config.validate)
    (hc : 0 ≤ c ∧ c ≤ 1) (hb : 0 ≤ b ∧ b ≤ 1) (he : 0 ≤ e ∧ e ≤ 1)
    (ha : 0 ≤ a ∧ a ≤ 1) (hh : 0 ≤ h ∧ h ≤ 1) (ht : 0 ≤ t ∧ t ≤ 1) :
    0 ≤ (calculate_composite_risk_index c b e a h t config).composite_risk_index ∧
    (calculate_composite_risk_index c b e a h t config).composite_risk_index ≤ 1.01 ∧
    (config.total_weight ≤ 1 →
      (calculate_composite_risk_index c b e a h t config).composite_risk_index ≤ 1) := by
  rw [calculate_composite_risk_index_of_validate c b e a h t config hv]
  dsimp only
  have hS0 : 0 ≤ c * config.crime_weight + b * config.blight_weight +
      e * config.emergency_response_weight + a * config.air_quality_weight +
      h * config.heat_exposure_weight + t * config.traffic_speed_weight := by
    have := mul_nonneg hc.1 hw1
    have := mul_nonneg hb.1 hw2
    have := mul_nonneg he.1 hw3
    have := mul_nonneg ha.1 hw4
    have := mul_nonneg hh.1 hw5
    have := mul_nonneg ht.1 hw6
    linarith
  have hS1 : c * config.crime_weight + b * config.blight_weight +
      e * config.emergency_response_weight + a * config.air_quality_weight +
      h * config.heat_exposure_weight + t * config.traffic_speed_weight ≤
      config.total_weight := by
    unfold RiskConfig.total_weight
    have := mul_le_of_le_one_left hw1 hc.2
    have := mul_le_of_le_one_left hw2 hb.2
    have := mul_le_of_le_one_left hw3 he.2
    have := mul_le_of_le_one_left hw4 ha.2
    have := mul_le_of_le_one_left hw5 hh.2
    have := mul_le_of_le_one_left hw6 ht.2
    linarith
  refine ⟨round3_nonneg hS0, ?_, ?_⟩
  · have hle : c * config.crime_weight + b * config.blight_weight +
        e * config.emergency_response_weight + a * config.air_quality_weight +
        h * config.heat_exposure_weight + t * config.traffic_speed_weight ≤ 1.01 :=
      le_trans hS1 hv.2
    have := round3_mono hle
    rwa [round3_one_zero_one] at this
  · intro hW
    exact round3_le_one (by linarith)

/-- Statement shorthand for claim C1: all six factor scores of a profile
lie in the unit interval. -/
def profile_scores_in_range (P : BlockRiskProfile) : Prop :=
  (0 ≤ P.crime_score ∧ P.crime_score ≤ 1) ∧
  (0 ≤ P.blight_score ∧ P.blight_score ≤ 1) ∧
  (0 ≤ P.emergency_response_score ∧ P.emergency_response_score ≤ 1) ∧
  (0 ≤ P.air_quality_score ∧ P.air_quality_score ≤ 1) ∧
  (0 ≤ P.heat_exposure_score ∧ P.heat_exposure_score ≤ 1) ∧
  (0 ≤ P.traffic_speed_score ∧ P.traffic_speed_score ≤ 1)

/-- A configuration with non-negative weights summing to 1.01 — the upper
edge of the validation tolerance — and default (positive) thresholds. -/
def over_weight_config : RiskConfig :=
  { crime_weight := 1.01, blight_weight := 0, emergency_response_weight := 0,
    air_quality_weight := 0, heat_exposure_weight := 0, traffic_speed_weight := 0 }

/-- A crime payload reporting 100 incidents per month (severity multiplier
absent, defaulting to 1.0) — a valid raw input that saturates the crime
score at 1. -/
def crime_payload_100 : CrimeData := { incidents_per_month := some 100 }

/-- Claim C1 (counterexample): with valid raw inputs (100 crime incidents,
non-negative weights, positive thresholds) and a weight sum of 1.01 —
accepted by validate — the composite risk index assembled by
`calculate_risk_for_block` is 1.01, outside [0,1]. -/
theorem range_invariant_counterexample :
    over_weight_config.total_weight = 1.01 ∧
    (calculate_risk_for_block "BLK_0.0_0.0" 0 0 crime_payload_100 {} {} {} {} {}
      over_weight_config).composite_risk_index = 1.01 ∧
    ¬ ((calculate_risk_for_block "BLK_0.0_0.0" 0 0 crime_payload_100 {} {} {} {} {}
      over_weight_config).composite_risk_index ≤ 1) := by
  have hw : over_weight_config.total_weight = 1.01 := by
    unfold over_weight_config RiskConfig.total_weight; norm_num
  have hcrime : calculate_crime_score 100 1.0 over_weight_config = 1 := by
    unfold calculate_crime_score over_weight_config
    rw [show min 1.0 ((100 : ℝ) * 1.0 / 50) = 1 by norm_num]
    exact round3_one
  have hcomp : (calculate_composite_risk_index 1 0 0 0 0.24 0
      over_weight_config).composite_risk_index = 1.01 := by
    rw [calculate_composite_risk_index_of_validate _ _ _ _ _ _ _
      (by constructor <;> (unfold RiskConfig.total_weight over_weight_config; norm_num))]
    dsimp only
    rw [show ((1:ℝ) * over_weight_config.crime_weight + 0 * over_weight_config.blight_weight +
        0 * over_weight_config.emergency_response_weight + 0 * over_weight_config.air_quality_weight +
        0.24 * over_weight_config.heat_exposure_weight + 0 * over_weight_config.traffic_speed_weight) = 1.01 by
      unfold over_weight_config; norm_num]
    exact round3_one_zero_one
  have hmain : (calculate_risk_for_block "BLK_0.0_0.0" 0 0 crime_payload_100 {} {} {} {} {}
      over_weight_config).composite_risk_index = 1.01 := by
    unfold calculate_risk_for_block crime_payload_100
    dsimp only
    simp only [Option.getD_none, Option.getD_some]
    rw [hcrime, blight_score_zero, emergency_score_zero, air_quality_score_zero,
      heat_score_default_inputs,
      traffic_score_default_inputs over_weight_config (by unfold over_weight_config; norm_num)]
    exact hcomp
  exact ⟨hw, hmain, by rw [hmain]; norm_num⟩

/-- Claim C1 (amended): for every valid raw-input set (non-negative counts,
times, AQI, severity multiplier and PM2.5; percentages in [0,100];
arbitrary real temperatures and speeds) and every RiskConfig with positive
thresholds and non-negative weights summing to within [0.99, 1.01], each of
the six factor scores produced via `calculate_risk_for_block` lies in
[0,1]; the composite_risk_index lies in [0, 1.01], and in [0,1] whenever
the weights sum to at most 1 (the claim's [0,1] bound fails only for weight
sums in (1, 1.01]). -/
theorem range_invariant (block_id : String) (lat lng : ℝ)
    (crime_data : CrimeData) (blight_data : BlightData) (emergency_data : EmergencyData)
    (air_quality_data : AirQualityData) (heat_data : HeatData) (traffic_data : TrafficData)
    (config : RiskConfig)
    (ht1 : 0 < config.crime_max_incidents) (ht2 : 0 < config.blight_max_properties)
    (ht3 : 0 < config.emergency_max_minutes) (ht4 : 0 < config.air_quality_max_aqi)
    (ht5 : 0 < config.heat_exposure_max_celsius) (ht6 : 0 < config.traffic_speed_max_mph)
    (hw1 : 0 ≤ config.crime_weight) (hw2 : 0 ≤ config.blight_weight)
    (hw3 : 0 ≤ config.emergency_response_weight) (hw4 : 0 ≤ config.air_quality_weight)
    (hw5 : 0 ≤ config.heat_exposure_weight) (hw6 : 0 ≤ config.traffic_speed_weight)
    (hv : 0.99 ≤ config.total_weight ∧ config.total_weight ≤ 1.01)
    (hc1 : 0 ≤ crime_data.incidents_per_month.getD 0)
    (hc2 : 0 ≤ crime_data.severity_multiplier.getD 1.0)
    (hb1 : 0 ≤ blight_data.abandoned_buildings.getD 0)
    (hb2 : 0 ≤ blight_data.vacant_lots.getD 0)
    (hb3 : 0 ≤ blight_data.code_violations.getD 0)
    (he1 : 0 ≤ emergency_data.avg_response_time_minutes.getD 0)
    (he2 : 0 ≤ emergency_data.percentile_90_time_minutes.getD 0)
    (ha1 : 0 ≤ air_quality_data.aqi_value.getD 0)
    (ha2 : ∀ p, air_quality_data.pm25_concentration = some p → 0 ≤ p)
    (hh1 : 0 ≤ heat_data.tree_canopy_percent.getD 30)
    (hh2 : heat_data.tree_canopy_percent.getD 30 ≤ 100)
    (hh3 : 0 ≤ heat_data.impervious_surface_percent.getD 50)
    (hh4 : heat_data.impervious_surface_percent.getD 50 ≤ 100) :
    profile_scores_in_range (calculate_risk_for_block block_id lat lng crime_data
      blight_data emergency_data air_quality_data heat_data traffic_data config) ∧
    0 ≤ (calculate_risk_for_block block_id lat lng crime_data blight_data emergency_data
      air_quality_data heat_data traffic_data config).composite_risk_index ∧
    (calculate_risk_for_block block_id lat lng crime_data blight_data emergency_data
      air_quality_data heat_data traffic_data config).composite_risk_index ≤ 1.01 ∧
    (config.total_weight ≤ 1 →
      (calculate_risk_for_block block_id lat lng crime_data blight_data emergency_data
        air_quality_data heat_data traffic_data config).composite_risk_index ≤ 1) := by
  have hcr := calculate_crime_score_bounds (crime_data.incidents_per_month.getD 0)
    (crime_data.severity_multiplier.getD 1.0) config hc1 hc2 ht1
  have hbl := calculate_blight_score_bounds (blight_data.abandoned_buildings.getD 0)
    (blight_data.vacant_lots.getD 0) (blight_data.code_violations.getD 0) config hb1 hb2 hb3 ht2
  have hem := calculate_emergency_response_score_bounds
    (emergency_data.avg_response_time_minutes.getD 0)
    (emergency_data.percentile_90_time_minutes.getD 0) config
  have hai := calculate_air_quality_score_bounds (air_quality_data.aqi_value.getD 0)
    air_quality_data.pm25_concentration config ha1 ha2
  have hhe := calculate_heat_exposure_score_bounds (heat_data.avg_temperature_celsius.getD 20)
    (heat_data.max_temperature_celsius.getD 25) (heat_data.tree_canopy_percent.getD 30)
    (heat_data.impervious_surface_percent.getD 50) config hh1 hh2 hh3 hh4
  have htr := calculate_traffic_speed_score_bounds (traffic_data.avg_speed_mph.getD 25)
    (traffic_data.percentile_85_speed_mph.getD 30) (traffic_data.pedestrian_volume.getD 50)
    (traffic_data.road_type.getD "residential") config
  have hco := composite_index_bounds
    (calculate_crime_score (crime_data.incidents_per_month.getD 0)
      (crime_data.severity_multiplier.getD 1.0) config)
    (calculate_blight_score (blight_data.abandoned_buildings.getD 0)
      (blight_data.vacant_lots.getD 0) (blight_data.code_violations.getD 0) config)
    (calculate_emergency_response_score (emergency_data.avg_response_time_minutes.getD 0)
      (emergency_data.percentile_90_time_minutes.getD 0) config)
    (calculate_air_quality_score (air_quality_data.aqi_value.getD 0)
      air_quality_data.pm25_concentration config)
    (calculate_heat_exposure_score (heat_data.avg_temperature_celsius.getD 20)
      (heat_data.max_temperature_celsius.getD 25) (heat_data.tree_canopy_percent.getD 30)
      (heat_data.impervious_surface_percent.getD 50) config)
    (calculate_traffic_speed_score (traffic_data.avg_speed_mph.getD 25)
      (traffic_data.percentile_85_speed_mph.getD 30) (traffic_data.pedestrian_volume.getD 50)
      (traffic_data.road_type.getD "residential") config)
    config hw1 hw2 hw3 hw4 hw5 hw6 hv hcr hbl hem hai hhe htr
  unfold calculate_risk_for_block profile_scores_in_range
  dsimp only
  exact ⟨⟨hcr, hbl, hem, hai, hhe, htr⟩, hco.1, hco.2.1, hco.2.2⟩

/-- Claim C1 (witness): the amended range invariant instantiated at the
default config (weight sum 1.0) and six empty payloads. -/
theorem range_invariant_witness :
    (0 : ℝ) < DEFAULT_CONFIG.crime_max_incidents ∧
    DEFAULT_CONFIG.total_weight ≤ 1 ∧
    (profile_scores_in_range (calculate_risk_for_block "BLK_0.0_0.0" 0 0 {} {} {} {} {} {}
      DEFAULT_CONFIG) ∧
    0 ≤ (calculate_risk_for_block "BLK_0.0_0.0" 0 0 {} {} {} {} {} {}
      DEFAULT_CONFIG).composite_risk_index ∧
    (calculate_risk_for_block "BLK_0.0_0.0" 0 0 {} {} {} {} {} {}
      DEFAULT_CONFIG).composite_risk_index ≤ 1.01 ∧
    (DEFAULT_CONFIG.total_weight ≤ 1 →
      (calculate_risk_for_block "BLK_0.0_0.0" 0 0 {} {} {} {} {} {}
        DEFAULT_CONFIG).composite_risk_index ≤ 1)) := by
  refine ⟨by unfold DEFAULT_CONFIG; norm_num,
    by unfold RiskConfig.total_weight DEFAULT_CONFIG; norm_num, ?_⟩
  exact range_invariant "BLK_0.0_0.0" 0 0 {} {} {} {} {} {} DEFAULT_CONFIG
    (by unfold DEFAULT_CONFIG; norm_num) (by unfold DEFAULT_CONFIG; norm_num)
    (by unfold DEFAULT_CONFIG; norm_num) (by unfold DEFAULT_CONFIG; norm_num)
    (by unfold DEFAULT_CONFIG; norm_num) (by unfold DEFAULT_CONFIG; norm_num)
    (by unfold DEFAULT_CONFIG; norm_num) (by unfold DEFAULT_CONFIG; norm_num)
    (by unfold DEFAULT_CONFIG; norm_num) (by unfold DEFAULT_CONFIG; norm_num)
    (by unfold DEFAULT_CONFIG; norm_num) (by unfold DEFAULT_CONFIG; norm_num)
    (by constructor <;> (unfold RiskConfig.total_weight DEFAULT_CONFIG; norm_num))
    (by simp only [Option.getD_none]; norm_num) (by simp only [Option.getD_none]; norm_num)
    (by simp only [Option.getD_none]; norm_num) (by simp only [Option.getD_none]; norm_num)
    (by simp only [Option.getD_none]; norm_num) (by simp only [Option.getD_none]; norm_num)
    (by simp only [Option.getD_none]; norm_num) (by simp only [Option.getD_none]; norm_num)
    (by intro p hp; simp at hp)
    (by simp only [Option.getD_none]; norm_num) (by simp only [Option.getD_none]; norm_num)
    (by simp only [Option.getD_none]; norm_num) (by simp only [Option.getD_none]; norm_num)

/-- A stored risk block row as read back by the batch endpoint (id plus the
six persisted factor scores). -/
structure StoredBlock where
  block_id : String
  crime_score : ℝ
  blight_score : ℝ
  emergency_response_score : ℝ
  air_quality_score : ℝ
  heat_exposure_score : ℝ
  traffic_speed_score : ℝ

/-- A block after the batch loop has recomputed its composite. -/
structure UpdatedBlock where
  block : StoredBlock
  composite_risk_index : ℝ
  risk_category : String

/-- The success response of the `/recalculate-all` endpoint. -/
structure RecalcResponse where
  blocks_updated : ℕ
  config_used : String

/-- The `recalculate_all_risk_blocks` endpoint
(`backend/app/api/endpoints/risk_index.py`), with persistence injected:
after the pure per-block loop it performs ONE `batch_upsert_risk_blocks`
call on the whole updated list, and its single try/except turns any
exception into one HTTP 500 error (`Except.error`) for the whole request —
there is no per-block error collection and no attempted/succeeded/failed
counting anywhere in the endpoint. -/
noncomputable def recalculate_all_risk_blocks (blocks : List StoredBlock)
    (config : RiskConfig) (config_name : String)
    (batch_upsert_risk_blocks : List UpdatedBlock → Except String Unit) :
    Except String RecalcResponse :=
  match blocks with
  | [] => Except.ok { blocks_updated := 0, config_used := config_name }
  | _ :: _ =>
    let updated_blocks := blocks.map (fun block =>
      let composite_result := calculate_composite_risk_index block.crime_score
        block.blight_score block.emergency_response_score block.air_quality_score
        block.heat_exposure_score block.traffic_speed_score config
      { block := block
        composite_risk_index := composite_result.composite_risk_index
        risk_category := composite_result.risk_category : UpdatedBlock })
    match batch_upsert_risk_blocks updated_blocks with
    | Except.ok _ =>
      Except.ok { blocks_updated := updated_blocks.length, config_used := config_name }
    | Except.error e => Except.error e

/-- `RiskIndexService.update_risk_blocks_in_area`: the body is a TODO stub
that fetches the blocks in bounds and returns their count without scoring
or persisting anything. -/
def update_risk_blocks_in_area (blocks_in_bounds : List StoredBlock) : ℕ :=
  blocks_in_bounds.length

/-- A stored block with the given id and all factor scores 0. -/
def stored_block (i : String) : StoredBlock :=
  { block_id := i, crime_score := 0, blight_score := 0, emergency_response_score := 0,
    air_quality_score := 0, heat_exposure_score := 0, traffic_speed_score := 0 }

/-- A batch of ten stored blocks, BLK_1 through BLK_10. -/
def blocks10 : List StoredBlock :=
  [stored_block "BLK_1", stored_block "BLK_2", stored_block "BLK_3", stored_block "BLK_4",
   stored_block "BLK_5", stored_block "BLK_6", stored_block "BLK_7", stored_block "BLK_8",
   stored_block "BLK_9", stored_block "BLK_10"]

/-- A persistence collaborator whose batch upsert fails exactly when the
batch contains block BLK_7 — the claim's scenario of block #7's persistence
call failing. -/
def upsert_failing_on_block7 : List UpdatedBlock → Except String Unit :=
  fun updated_blocks =>
    if updated_blocks.any (fun u => u.block.block_id == "BLK_7") then
      Except.error "persistence failure on BLK_7"
    else Except.ok ()

/-- Claim C9 (evaluation at the failing input): on a batch of 10 blocks
whose persistence call fails on block #7, the endpoint returns a single
error for the whole request — not a report of 9 successes and 1 failure —
because persistence is one all-or-nothing batch upsert inside one
try/except; and the service-layer driver `update_risk_blocks_in_area` only
returns the block count without processing anything. -/
theorem batch_partial_failure_code_bug :
    recalculate_all_risk_blocks blocks10 DEFAULT_CONFIG "default" upsert_failing_on_block7 =
      Except.error "persistence failure on BLK_7" ∧
    blocks10.length = 10 ∧
    update_risk_blocks_in_area blocks10 = 10 := by
  refine ⟨?_, rfl, rfl⟩
  rfl

end NeuraCity
